import Mathlib

/-!
Verification development for the trading-dashboard frontend's authenticated
API access layer (the axios client in `lib/api.ts` and the React auth
provider in `lib/auth.tsx`).

The embedding is a shallow one:

* `TokenState` models the module-level token variables `accessToken` /
  `refreshToken` together with the `localStorage` entries
  `artha_access_token` / `artha_refresh_token`; `hasWindow` models the
  `typeof window !== 'undefined'` environment test.
* `setTokens`, `getAccessToken`, `getRefreshToken`, `clearTokens` are the
  exported token-management functions.
* `authorize` is the request interceptor (`api.interceptors.request.use`).
* `responseErrorHandler` is the error branch of the response interceptor
  (`api.interceptors.response.use`), with the backend's answers to the
  refresh call and to the resubmitted request supplied as an environment.
* A small-step system (`Sys`, `step`, `run`) runs any number of requests
  that each received a 401 concurrently, so that interleavings of the
  handler's await points (the refresh call, the resubmission) are visible.
* `ProvState` / `pstep` model the `AuthProvider` component state: the
  cached user object from the `['user']` react-query entry and the derived
  `isAuthenticated: !!user` flag.
-/

/-- JavaScript truthiness of a `string | null` value: `null` and the empty
string are falsy, every other string is truthy. -/
def truthy : Option String → Bool
  | none => false
  | some s => if s = "" then false else true

/-- State of the token storage in `lib/api.ts`: the in-memory module
variables `accessToken` / `refreshToken`, the two `localStorage` keys, and
whether a `window` object (hence `localStorage`) exists in this runtime. -/
structure TokenState where
  memAccess : Option String
  memRefresh : Option String
  lsAccess : Option String
  lsRefresh : Option String
  hasWindow : Bool
deriving Repr, DecidableEq

/-- `setTokens(access, refresh)`: writes both module variables, and both
`localStorage` keys when a window exists. -/
def setTokens (access refresh : String) (s : TokenState) : TokenState :=
  { memAccess := some access
    memRefresh := some refresh
    lsAccess := if s.hasWindow then some access else s.lsAccess
    lsRefresh := if s.hasWindow then some refresh else s.lsRefresh
    hasWindow := s.hasWindow }

/-- `getAccessToken()`: returns the in-memory token if truthy, otherwise
falls back to `localStorage` when a window exists, otherwise `null`. -/
def getAccessToken (s : TokenState) : Option String :=
  if truthy s.memAccess then s.memAccess
  else if s.hasWindow then s.lsAccess
  else none

/-- `getRefreshToken()`: same shape as `getAccessToken`. -/
def getRefreshToken (s : TokenState) : Option String :=
  if truthy s.memRefresh then s.memRefresh
  else if s.hasWindow then s.lsRefresh
  else none

/-- `clearTokens()`: nulls both module variables and removes both
`localStorage` keys when a window exists. -/
def clearTokens (s : TokenState) : TokenState :=
  { memAccess := none
    memRefresh := none
    lsAccess := if s.hasWindow then none else s.lsAccess
    lsRefresh := if s.hasWindow then none else s.lsRefresh
    hasWindow := s.hasWindow }

/-- The headers object of an axios request config; the `Authorization`
entry is singled out because the interceptors assign to it by property
access (assignment replaces, never duplicates), `rest` carries the other
headers untouched by the auth layer. -/
structure Headers where
  authorization : Option String
  rest : List (String × String)
deriving Repr, DecidableEq

/-- An axios request config (`InternalAxiosRequestConfig & \x7b _retry?: boolean \x7d`):
url, method, body, query params, headers and the `_retry` guard flag. -/
structure ReqConfig where
  url : String
  method : String
  body : Option String
  params : List (String × String)
  headers : Headers
  retry : Bool
deriving Repr, DecidableEq

/-- A backend response as far as the auth layer inspects it. -/
structure Resp where
  status : Nat
  body : String
deriving Repr, DecidableEq

/-- An `AxiosError`: `status` is `error.response?.status` (`none` when no
response was received, i.e. a transport-level failure), `config` is the
original request config the error carries. -/
structure AxiosErr where
  status : Option Nat
  config : ReqConfig
deriving Repr, DecidableEq

/-- The request interceptor (`api.interceptors.request.use`): reads the
current access token and, when truthy, assigns
`config.headers.Authorization = Bearer <token>`; otherwise passes the
request through unchanged. -/
def authorize (s : TokenState) (req : ReqConfig) : ReqConfig :=
  match getAccessToken s with
  | none => req
  | some t =>
      if t = "" then req
      else { req with headers := { req.headers with authorization := some ("Bearer " ++ t) } }

instance {ε α : Type} [DecidableEq ε] [DecidableEq α] : DecidableEq (Except ε α) := fun x y =>
  match x, y with
  | .ok a, .ok b =>
      if h : a = b then .isTrue (congrArg Except.ok h)
      else .isFalse (fun hh => h (Except.ok.inj hh))
  | .error a, .error b =>
      if h : a = b then .isTrue (congrArg Except.error h)
      else .isFalse (fun hh => h (Except.error.inj hh))
  | .ok _, .error _ => .isFalse (fun hh => Except.noConfusion hh)
  | .error _, .ok _ => .isFalse (fun hh => Except.noConfusion hh)

/-- Backend behaviour the response interceptor depends on: the outcome of
the `POST /api/auth/refresh` call (a new `access_token` / `refresh_token`
pair, or a failure status), and the outcome of the resubmitted original
request. -/
structure Env where
  refreshResult : Except Nat (String × String)
  retryResult : Except AxiosErr Resp
deriving Repr, DecidableEq

/-- What the caller's promise settles to: the resubmitted request's own
outcome, or rejection with an error. -/
inductive HOutcome where
  | retried (r : Except AxiosErr Resp)
  | rejected (e : AxiosErr)
deriving Repr, DecidableEq

/-- Observable result of one pass through the response-error interceptor:
the token state afterwards, whether a refresh call was issued, the
resubmitted request (if any) as it leaves the request interceptor, the
caller-visible outcome, and the original request object after any in-place
mutation of its `_retry` flag. -/
structure HResult where
  tok : TokenState
  refreshIssued : Bool
  resubmitted : Option ReqConfig
  outcome : HOutcome
  reqAfter : ReqConfig
deriving Repr, DecidableEq

/-- The error branch of `api.interceptors.response.use`, clause by clause:
401 with the `_retry` flag unset sets the flag and reads the refresh
token; a truthy refresh token triggers the refresh call; on refresh
success the new pair is stored, `Authorization` is set to the new token
and the request is resubmitted through `api` (hence through `authorize`);
on refresh failure tokens are cleared and the original error is rejected;
every other path rejects the original error. -/
def responseErrorHandler (env : Env) (st : TokenState) (err : AxiosErr) : HResult :=
  let req := err.config
  if err.status = some 401 ∧ req.retry = false then
    let req2 := { req with retry := true }
    match getRefreshToken st with
    | some refresh =>
        if refresh = "" then
          { tok := st, refreshIssued := false, resubmitted := none
            outcome := .rejected { err with config := req2 }, reqAfter := req2 }
        else
          match env.refreshResult with
          | .ok (a, r) =>
              let st2 := setTokens a r st
              let req3 := { req2 with
                headers := { req2.headers with authorization := some ("Bearer " ++ a) } }
              { tok := st2, refreshIssued := true, resubmitted := some (authorize st2 req3)
                outcome := .retried env.retryResult, reqAfter := req3 }
          | .error _ =>
              { tok := clearTokens st, refreshIssued := true, resubmitted := none
                outcome := .rejected { err with config := req2 }, reqAfter := req2 }
    | none =>
        { tok := st, refreshIssued := false, resubmitted := none
          outcome := .rejected { err with config := req2 }, reqAfter := req2 }
  else
    { tok := st, refreshIssued := false, resubmitted := none
      outcome := .rejected err, reqAfter := req }

/-!
Concurrent execution of the 401 handler.  Each request that received a 401
runs the handler above; the handler suspends at two points: the awaited
refresh call (`axios.post .../api/auth/refresh`) and the awaited
resubmission (`api(originalRequest)`).  The small-step system below makes
those suspension points explicit so that interleavings of several
concurrently failing requests are observable: the scheduler chooses which
request advances next, and the shared `TokenState` is the module-level
token storage every handler reads and writes.
-/

/-- Where one 401-failing request currently is in its handler:
just received the 401; awaiting its refresh call (tagged with the global
index of that refresh call); awaiting its resubmitted request; or settled. -/
inductive Phase where
  | got401
  | awaitRefresh (callIdx : Nat)
  | awaitRetry
  | doneRejected
  | doneResolved
deriving Repr, DecidableEq

/-- One concurrently running request: its config and its handler phase. -/
structure Proc where
  req : ReqConfig
  phase : Phase
deriving Repr, DecidableEq

/-- Global state of the concurrent system: shared token storage, the
per-request processes, how many refresh calls were issued so far, how many
are currently in flight, the high-water mark of simultaneous in-flight
refresh calls, and the log of resubmissions
`(request index, Authorization header sent)` in resubmission order. -/
structure Sys where
  tok : TokenState
  procs : Nat → Proc
  refreshCount : Nat
  inFlight : Nat
  maxFlight : Nat
  resubs : List (Nat × String)

/-- Backend answers for the concurrent system: the outcome of the `k`-th
refresh call issued. -/
structure CEnv where
  refreshResp : Nat → Except Nat (String × String)

/-- Scheduler events: run request `i`'s handler up to its first await,
resolve request `i`'s pending refresh call, resolve request `i`'s pending
resubmission. -/
inductive Ev where
  | start (i : Nat)
  | refreshDone (i : Nat)
  | retryDone (i : Nat)
deriving Repr, DecidableEq

/-- Pointwise process update. -/
def updProc (f : Nat → Proc) (i : Nat) (p : Proc) : Nat → Proc :=
  fun j => if j = i then p else f j

/-- One scheduler step.  `start i` performs the synchronous prefix of the
handler for request `i`: the 401/`_retry` guard, setting `_retry`, reading
the refresh token, and issuing the refresh call (or rejecting at once).
`refreshDone i` performs the continuation after request `i`'s own refresh
call resolves: on success `setTokens`, set the `Authorization` header and
resubmit through the request interceptor; on failure `clearTokens` and
reject.  `retryDone i` settles the resubmitted request. -/
def step (env : CEnv) (s : Sys) : Ev → Sys
  | .start i =>
      let p := s.procs i
      match p.phase with
      | .got401 =>
          if p.req.retry then
            { s with procs := updProc s.procs i { p with phase := .doneRejected } }
          else
            let p2 : Proc := { req := { p.req with retry := true }, phase := p.phase }
            match getRefreshToken s.tok with
            | some refresh =>
                if refresh = "" then
                  { s with procs := updProc s.procs i { p2 with phase := .doneRejected } }
                else
                  { s with
                    procs := updProc s.procs i { p2 with phase := .awaitRefresh s.refreshCount }
                    refreshCount := s.refreshCount + 1
                    inFlight := s.inFlight + 1
                    maxFlight := max s.maxFlight (s.inFlight + 1) }
            | none =>
                { s with procs := updProc s.procs i { p2 with phase := .doneRejected } }
      | _ => s
  | .refreshDone i =>
      let p := s.procs i
      match p.phase with
      | .awaitRefresh k =>
          match env.refreshResp k with
          | .ok (a, r) =>
              let tok2 := setTokens a r s.tok
              let req3 : ReqConfig := { p.req with
                headers := { p.req.headers with authorization := some ("Bearer " ++ a) } }
              let sent := authorize tok2 req3
              { s with
                tok := tok2
                procs := updProc s.procs i { req := req3, phase := .awaitRetry }
                inFlight := s.inFlight - 1
                resubs := s.resubs ++ [(i, (sent.headers.authorization).getD "")] }
          | .error _ =>
              { s with
                tok := clearTokens s.tok
                procs := updProc s.procs i { p with phase := .doneRejected }
                inFlight := s.inFlight - 1 }
      | _ => s
  | .retryDone i =>
      let p := s.procs i
      match p.phase with
      | .awaitRetry =>
          { s with procs := updProc s.procs i { p with phase := .doneResolved } }
      | _ => s

/-- Run a schedule. -/
def run (env : CEnv) (s : Sys) : List Ev → Sys
  | [] => s
  | e :: evs => run env (step env s e) evs

/-- A plain GET request, not yet retried, used as the concrete shape of
the concurrently failing requests. -/
def plainReq (i : Nat) : ReqConfig :=
  { url := "/api/trade/positions"
    method := "GET"
    body := none
    params := [("page", toString i)]
    headers := { authorization := some "Bearer old", rest := [] }
    retry := false }

/-- Initial token storage for the concurrency scenarios: an (expired)
access token and a refresh token are stored, browser environment. -/
def tokStart : TokenState :=
  { memAccess := some "old"
    memRefresh := some "refresh0"
    lsAccess := some "old"
    lsRefresh := some "refresh0"
    hasWindow := true }

/-- `N` requests that all just received a 401: the initial state of the
concurrent system. -/
def initSys : Sys :=
  { tok := tokStart
    procs := fun i => { req := plainReq i, phase := .got401 }
    refreshCount := 0
    inFlight := 0
    maxFlight := 0
    resubs := [] }

/-- The schedule in which requests `0, …, n-1` each run their handler up
to the refresh await, before any refresh call resolves. -/
def startAll (n : Nat) : List Ev :=
  (List.range n).map .start

/-!
The `AuthProvider` component (`lib/auth.tsx`): session state is the cached
user object in the react-query `['user']` entry; the context exposes
`isAuthenticated: !!user`.  The provider reads the token store on mount,
enables the profile fetch only when a token is stored, caches the fetched
user on success, sets the user on login success and clears it on logout.
The response interceptor's `clearTokens()` on a failed refresh touches only
the token store, not the cached user.
-/

/-- State of the auth provider: the shared token storage, whether the
mount effect has run (`isInitialized`), whether the `['user']` query is in
flight, and the cached user object (`none` models both `undefined` and
`null` query data). -/
structure ProvState where
  tok : TokenState
  initialized : Bool
  fetching : Bool
  user : Option Nat
deriving Repr, DecidableEq

/-- Events the provider reacts to: the mount effect; the `['user']` query
firing (enabled only when initialized and a token is stored); the query
resolving with a user or erroring; a login mutation succeeding (stores the
token pair, caches `data.user`); `logout()` (clears tokens and user);
and the response interceptor clearing tokens after a failed refresh. -/
inductive PEv where
  | mountEffect
  | fetchStart
  | fetchOk (u : Nat)
  | fetchErr
  | loginOk (u : Nat) (access refresh : String)
  | logoutEv
  | refreshFailClear
deriving Repr, DecidableEq

/-- One provider transition, clause by clause from `AuthProvider`. -/
def pstep (s : ProvState) : PEv → ProvState
  | .mountEffect =>
      let s2 := { s with initialized := true }
      if truthy (getAccessToken s2.tok) then s2 else { s2 with user := none }
  | .fetchStart =>
      if s.initialized ∧ truthy (getAccessToken s.tok) ∧ s.user = none then
        { s with fetching := true }
      else s
  | .fetchOk u =>
      if s.fetching then { s with fetching := false, user := some u } else s
  | .fetchErr =>
      if s.fetching then { s with fetching := false } else s
  | .loginOk u access refresh =>
      { s with tok := setTokens access refresh s.tok, user := some u }
  | .logoutEv =>
      { s with tok := clearTokens s.tok, user := none }
  | .refreshFailClear =>
      { s with tok := clearTokens s.tok }

/-- Run a sequence of provider events. -/
def prun (s : ProvState) (evs : List PEv) : ProvState :=
  evs.foldl pstep s

/-- `isAuthenticated: !!user` in the context value. -/
def isAuthenticated (s : ProvState) : Bool :=
  s.user.isSome

/-- A fresh browser session: empty token storage, provider not yet
mounted, nothing cached. -/
def provStart : ProvState :=
  { tok :=
      { memAccess := none, memRefresh := none
        lsAccess := none, lsRefresh := none, hasWindow := true }
    initialized := false
    fetching := false
    user := none }

/-!
Concrete fixtures used by the scenario theorems below.
-/

/-- An empty token storage in a browser environment. -/
def emptyTok : TokenState :=
  { memAccess := none, memRefresh := none
    lsAccess := none, lsRefresh := none, hasWindow := true }

/-- An empty token storage outside a browser (server-side rendering):
`typeof window === 'undefined'`. -/
def noWindowTok : TokenState :=
  { memAccess := none, memRefresh := none
    lsAccess := none, lsRefresh := none, hasWindow := false }

/-- Backend that answers the refresh call with a fresh pair and the
resubmitted request with 200. -/
def envOkW : Env :=
  { refreshResult := .ok ("newAcc", "newRef")
    retryResult := .ok { status := 200, body := "ok" } }

/-- Backend whose refresh endpoint itself answers 401. -/
def envFailW : Env :=
  { refreshResult := .error 401
    retryResult := .ok { status := 200, body := "ok" } }

/-- Concurrent backend answering every refresh call with the same pair. -/
def cenvConst : CEnv :=
  { refreshResp := fun _ => .ok ("newAcc", "newRef") }

/-- Concurrent backend answering the first refresh call with one pair and
every later one with a different pair. -/
def cenvTwo : CEnv :=
  { refreshResp := fun k => if k = 0 then .ok ("tokA", "refA") else .ok ("tokB", "refB") }

/-- A 401 error on a request not yet retried. -/
def freshErr : AxiosErr :=
  { status := some 401, config := plainReq 0 }

/-- A 401 error on a request whose `_retry` flag is already set. -/
def retriedErr : AxiosErr :=
  { status := some 401, config := { plainReq 0 with retry := true } }

/-- A transport-level failure: no response was received. -/
def transportErr : AxiosErr :=
  { status := none, config := plainReq 0 }

/-- The login request `POST /api/auth/login`. -/
def loginReq : ReqConfig :=
  { url := "/api/auth/login"
    method := "POST"
    body := some "email-password"
    params := []
    headers := { authorization := none, rest := [] }
    retry := false }

/-- A 401 answer to the login request. -/
def loginErr401 : AxiosErr :=
  { status := some 401, config := loginReq }

/-- A 422 answer to the login request. -/
def loginErr422 : AxiosErr :=
  { status := some 422, config := loginReq }

/-!
Helper lemmas.
-/

/-- After `clearTokens` the read path finds nothing: the in-memory value
is null and the `localStorage` key (when a window exists) was removed. -/
theorem getAccessToken_clearTokens (st : TokenState) :
    getAccessToken (clearTokens st) = none := by
  by_cases hw : st.hasWindow <;> simp [getAccessToken, clearTokens, truthy, hw]

/-- Same for the refresh token. -/
theorem getRefreshToken_clearTokens (st : TokenState) :
    getRefreshToken (clearTokens st) = none := by
  by_cases hw : st.hasWindow <;> simp [getRefreshToken, clearTokens, truthy, hw]

/-- After `setTokens a r`, reading the access token yields `a`, provided
`a` is a truthy string or `localStorage` is available as a fallback. -/
theorem getAccessToken_setTokens (a r : String) (st : TokenState)
    (h : a ≠ "" ∨ st.hasWindow = true) :
    getAccessToken (setTokens a r st) = some a := by
  rcases h with h | h
  · simp [getAccessToken, setTokens, truthy, h]
  · by_cases ha : a = "" <;> simp [getAccessToken, setTokens, truthy, h, ha]

/-- `authorize` touches only the `Authorization` header: url, method,
body, query params and the retry flag pass through unchanged. -/
theorem authorize_fields (s : TokenState) (req : ReqConfig) :
    (authorize s req).url = req.url ∧
    (authorize s req).method = req.method ∧
    (authorize s req).body = req.body ∧
    (authorize s req).params = req.params ∧
    (authorize s req).retry = req.retry := by
  cases hga : getAccessToken s with
  | none => simp [authorize, hga]
  | some t =>
      by_cases ht : t = ""
      · simp [authorize, hga, ht]
      · simp [authorize, hga, ht]

/-- A request whose `Authorization` header already carries the bearer
value for `a` keeps exactly that header when it passes through the
request interceptor after `setTokens a r`. -/
theorem authorize_auth_after_set (a r : String) (st : TokenState) (req : ReqConfig)
    (h : req.headers.authorization = some ("Bearer " ++ a)) :
    (authorize (setTokens a r st) req).headers.authorization = some ("Bearer " ++ a) := by
  by_cases ha : a = ""
  · subst ha
    by_cases hw : st.hasWindow
    · simp [authorize, getAccessToken, setTokens, truthy, hw, h]
    · simp [authorize, getAccessToken, setTokens, truthy, hw, h]
  · have hget : getAccessToken (setTokens a r st) = some a :=
      getAccessToken_setTokens a r st (Or.inl ha)
    simp [authorize, hget, ha]

/-- C8: the request-authorization step is idempotent: applying the request
interceptor twice to a request yields the same request as applying it
once; assigning the `Authorization` property replaces the previous value,
so the bearer credential is neither duplicated nor corrupted. -/
theorem C8_authorize_idempotent (s : TokenState) (req : ReqConfig) :
    authorize s (authorize s req) = authorize s req := by
  cases hga : getAccessToken s with
  | none => simp [authorize, hga]
  | some t =>
      by_cases ht : t = ""
      · simp [authorize, hga, ht]
      · simp [authorize, hga, ht]

/-- C5 (counterexample): the round trip fails for the empty token string
in a runtime without a window object: `setTokens("", r)` stores a falsy
in-memory value and cannot write `localStorage`, so the immediately
following `getAccessToken()` returns null rather than the empty string
that was set. -/
theorem C5_counterexample :
    getAccessToken (setTokens "" "refreshX" noWindowTok) = none ∧
    (none : Option String) ≠ some "" := by
  constructor
  · rfl
  · intro h
    cases h

/-- C5 (amended): for every token pair, provided the access token is a
nonempty string or `localStorage` is available, `setTokens(a, r)` followed
immediately by `getAccessToken()` returns `a`; and `clearTokens()`
followed by `getAccessToken()` returns null unconditionally. -/
theorem C5_roundtrip (a r : String) (st : TokenState)
    (h : a ≠ "" ∨ st.hasWindow = true) :
    getAccessToken (setTokens a r st) = some a ∧
    getAccessToken (clearTokens st) = none :=
  ⟨getAccessToken_setTokens a r st h, getAccessToken_clearTokens st⟩

/-- C5 (witness): the round trip at a concrete nonempty pair, in a
windowless runtime. -/
theorem C5_roundtrip_witness :
    getAccessToken (setTokens "tokenA" "tokenB" noWindowTok) = some "tokenA" ∧
    getAccessToken (clearTokens noWindowTok) = none :=
  C5_roundtrip "tokenA" "tokenB" noWindowTok (Or.inl (by decide))

/-- C2: a request that fails with 401 while its `_retry` flag is already
set falls straight through the interceptor guard: the original 401 error
is rejected to the caller unchanged, no refresh call is issued, nothing is
resubmitted, and the token store is untouched — every request is retried
at most once. -/
theorem C2_bounded_retry (env : Env) (st : TokenState) (err : AxiosErr)
    (h401 : err.status = some 401) (hret : err.config.retry = true) :
    responseErrorHandler env st err =
      { tok := st, refreshIssued := false, resubmitted := none
        outcome := .rejected err, reqAfter := err.config } := by
  simp [responseErrorHandler, hret]

/-- C2 (witness): the already-retried request at a concrete input. -/
theorem C2_bounded_retry_witness :
    responseErrorHandler envOkW tokStart retriedErr =
      { tok := tokStart, refreshIssued := false, resubmitted := none
        outcome := .rejected retriedErr, reqAfter := retriedErr.config } :=
  C2_bounded_retry envOkW tokStart retriedErr rfl rfl

/-- C9: a transport-level failure (no response, so no status) never enters
the 401 branch: the error object is rejected to the caller unchanged, no
refresh call is issued, nothing is resubmitted, the token store is
untouched, and the request's `_retry` flag is not consumed. -/
theorem C9_transport_passthrough (env : Env) (st : TokenState) (err : AxiosErr)
    (h : err.status = none) :
    responseErrorHandler env st err =
      { tok := st, refreshIssued := false, resubmitted := none
        outcome := .rejected err, reqAfter := err.config } := by
  simp [responseErrorHandler, h]

/-- C9 (witness): a concrete transport failure. -/
theorem C9_transport_passthrough_witness :
    responseErrorHandler envOkW tokStart transportErr =
      { tok := tokStart, refreshIssued := false, resubmitted := none
        outcome := .rejected transportErr, reqAfter := transportErr.config } :=
  C9_transport_passthrough envOkW tokStart transportErr rfl

/-- C10: whatever error the refresh call itself fails with, the caller's
promise is rejected with the original request's 401 error (the same error
object, only its `_retry` flag mutated), never with the refresh call's own
error, and the tokens are cleared first; likewise, when no truthy refresh
token is stored the caller receives the original 401 error, with no
refresh issued and the store untouched. -/
theorem C10_original_error_rejected (env : Env) (st : TokenState) (err : AxiosErr)
    (h401 : err.status = some 401) (hret : err.config.retry = false) :
    (∀ e : Nat, env.refreshResult = .error e →
      ∀ rt : String, getRefreshToken st = some rt → rt ≠ "" →
        (responseErrorHandler env st err).outcome =
          .rejected { err with config := { err.config with retry := true } } ∧
        (responseErrorHandler env st err).tok = clearTokens st) ∧
    (truthy (getRefreshToken st) = false →
        (responseErrorHandler env st err).outcome =
          .rejected { err with config := { err.config with retry := true } } ∧
        (responseErrorHandler env st err).refreshIssued = false ∧
        (responseErrorHandler env st err).tok = st) := by
  constructor
  · intro e he rt hrt hne
    simp [responseErrorHandler, h401, hret, hrt, hne, he]
  · intro htr
    cases hrt : getRefreshToken st with
    | none => simp [responseErrorHandler, h401, hret, hrt]
    | some t =>
        rw [hrt] at htr
        by_cases ht : t = ""
        · simp [responseErrorHandler, h401, hret, hrt, ht]
        · simp [truthy, ht] at htr

/-- C10 (witness): concrete refresh failure and concrete token-free store. -/
theorem C10_original_error_rejected_witness :
    (responseErrorHandler envFailW tokStart freshErr).outcome =
      .rejected { freshErr with config := { freshErr.config with retry := true } } ∧
    (responseErrorHandler envFailW emptyTok freshErr).refreshIssued = false := by
  have h1 := (C10_original_error_rejected envFailW tokStart freshErr rfl rfl).1
    401 rfl "refresh0" (by decide) (by decide)
  have h2 := (C10_original_error_rejected envFailW emptyTok freshErr rfl rfl).2 (by decide)
  exact ⟨h1.1, h2.2.1⟩

/-- C4: when the refresh call fails (in particular with 401), the request
that triggered it — the only request tied to a given refresh call, since
each 401 handler performs its own refresh — fails with the 401
authorization error, the token store is cleared, and both
`getAccessToken()` and `getRefreshToken()` subsequently return null. -/
theorem C4_refresh_failure_terminal (env : Env) (st : TokenState) (err : AxiosErr)
    (rt : String) (e : Nat)
    (h401 : err.status = some 401) (hret : err.config.retry = false)
    (hrt : getRefreshToken st = some rt) (hne : rt ≠ "")
    (hfail : env.refreshResult = .error e) :
    (responseErrorHandler env st err).outcome =
      .rejected { err with config := { err.config with retry := true } } ∧
    ({ err with config := { err.config with retry := true } } : AxiosErr).status = some 401 ∧
    (responseErrorHandler env st err).tok = clearTokens st ∧
    getAccessToken (responseErrorHandler env st err).tok = none ∧
    getRefreshToken (responseErrorHandler env st err).tok = none := by
  have hred :
      responseErrorHandler env st err =
        { tok := clearTokens st, refreshIssued := true, resubmitted := none
          outcome := .rejected { err with config := { err.config with retry := true } }
          reqAfter := { err.config with retry := true } } := by
    simp [responseErrorHandler, h401, hret, hrt, hne, hfail]
  refine ⟨by rw [hred], h401, by rw [hred], ?_, ?_⟩
  · rw [hred]
    exact getAccessToken_clearTokens st
  · rw [hred]
    exact getRefreshToken_clearTokens st

/-- C4 (witness): concrete failing refresh. -/
theorem C4_refresh_failure_terminal_witness :
    (responseErrorHandler envFailW tokStart freshErr).outcome =
      .rejected { freshErr with config := { freshErr.config with retry := true } } ∧
    getAccessToken (responseErrorHandler envFailW tokStart freshErr).tok = none := by
  have h := C4_refresh_failure_terminal envFailW tokStart freshErr "refresh0" 401
    rfl rfl (by decide) (by decide) rfl
  exact ⟨h.1, h.2.2.2.1⟩

/-- C3 (counterexample): there is no shared refresh episode or FIFO replay
queue.  With two requests that received a 401 concurrently (request 0
arriving first) and a backend whose successive refresh calls return the
distinct tokens tokA and tokB, the code issues two refresh calls, and the
resubmissions carry different bearer tokens and happen in the order the
refresh calls resolved (request 1 before request 0), not in FIFO arrival
order — contradicting that exactly the one episode token is used and that
replay is FIFO. -/
theorem C3_counterexample :
    (run cenvTwo initSys [.start 0, .start 1, .refreshDone 1, .refreshDone 0]).resubs =
      [(1, "Bearer tokB"), (0, "Bearer tokA")] ∧
    (run cenvTwo initSys [.start 0, .start 1, .refreshDone 1, .refreshDone 0]).refreshCount = 2 ∧
    ("Bearer tokB" : String) ≠ "Bearer tokA" := by
  refine ⟨by decide, by decide, by decide⟩

/-- C3 (amended): each 401-failing request performs its own refresh; when
that refresh succeeds with pair `(a, r)`, the request is resubmitted
exactly once, carrying `Bearer a` — the token of its own refresh call —
with its original url, method, body and query params unchanged and its
`_retry` flag set, and the caller receives the resubmission's own outcome. -/
theorem C3_retry_with_own_token (env : Env) (st : TokenState) (err : AxiosErr)
    (a r rt : String)
    (h401 : err.status = some 401) (hret : err.config.retry = false)
    (hrt : getRefreshToken st = some rt) (hne : rt ≠ "")
    (hok : env.refreshResult = .ok (a, r)) :
    ∃ sent : ReqConfig,
      (responseErrorHandler env st err).resubmitted = some sent ∧
      sent.url = err.config.url ∧
      sent.method = err.config.method ∧
      sent.body = err.config.body ∧
      sent.params = err.config.params ∧
      sent.retry = true ∧
      sent.headers.authorization = some ("Bearer " ++ a) ∧
      (responseErrorHandler env st err).outcome = .retried env.retryResult ∧
      (responseErrorHandler env st err).tok = setTokens a r st := by
  have hred :
      responseErrorHandler env st err =
        { tok := setTokens a r st
          refreshIssued := true
          resubmitted := some (authorize (setTokens a r st)
            { err.config with
              retry := true
              headers := { err.config.headers with
                authorization := some ("Bearer " ++ a) } })
          outcome := .retried env.retryResult
          reqAfter := { err.config with
            retry := true
            headers := { err.config.headers with
              authorization := some ("Bearer " ++ a) } } } := by
    simp [responseErrorHandler, h401, hret, hrt, hne, hok]
  obtain ⟨hu, hm, hb, hp, hr⟩ := authorize_fields (setTokens a r st)
    { err.config with
      retry := true
      headers := { err.config.headers with authorization := some ("Bearer " ++ a) } }
  refine ⟨_, by rw [hred], hu, hm, hb, hp, hr, ?_, by rw [hred], by rw [hred]⟩
  exact authorize_auth_after_set a r st _ rfl

/-- C3 (witness): the refresh-and-retry path at a concrete input. -/
theorem C3_retry_with_own_token_witness :
    (responseErrorHandler envOkW tokStart freshErr).outcome = .retried envOkW.retryResult ∧
    (responseErrorHandler envOkW tokStart freshErr).tok = setTokens "newAcc" "newRef" tokStart := by
  obtain ⟨sent, h⟩ := C3_retry_with_own_token envOkW tokStart freshErr
    "newAcc" "newRef" "refresh0" rfl rfl (by decide) (by decide) rfl
  exact ⟨h.2.2.2.2.2.2.2.1, h.2.2.2.2.2.2.2.2⟩

/-- C6 (counterexample): the login call goes through the same response
interceptor as every other request, and the interceptor does not exempt
it: when a (stale) refresh token is stored, a login that fails with 401
does trigger a refresh call and a resubmission of the login request. -/
theorem C6_counterexample :
    (responseErrorHandler envOkW tokStart loginErr401).refreshIssued = true ∧
    (responseErrorHandler envOkW tokStart loginErr401).resubmitted ≠ none := by
  refine ⟨by decide, by decide⟩

/-- C6 (amended): a login that fails with 422 is rejected to the caller
untouched, with no refresh and no resubmission; a login that fails with
401 while no truthy refresh token is stored is likewise rejected with the
original 401 error, with no refresh and no resubmission; but a 401 login
failure with a stored refresh token does trigger a refresh and a single
resubmission of the login request. -/
theorem C6_login_failure (env : Env) (st : TokenState) (err : AxiosErr)
    (hurl : err.config.url = "/api/auth/login") :
    (err.status = some 422 →
      responseErrorHandler env st err =
        { tok := st, refreshIssued := false, resubmitted := none
          outcome := .rejected err, reqAfter := err.config }) ∧
    (err.status = some 401 → err.config.retry = false →
      truthy (getRefreshToken st) = false →
      (responseErrorHandler env st err).refreshIssued = false ∧
      (responseErrorHandler env st err).resubmitted = none ∧
      (responseErrorHandler env st err).outcome =
        .rejected { err with config := { err.config with retry := true } }) := by
  constructor
  · intro h422
    simp [responseErrorHandler, h422]
  · intro h401 hret htr
    cases hrt : getRefreshToken st with
    | none => simp [responseErrorHandler, h401, hret, hrt]
    | some t =>
        rw [hrt] at htr
        by_cases ht : t = ""
        · simp [responseErrorHandler, h401, hret, hrt, ht]
        · simp [truthy, ht] at htr

/-- C6 (witness): a concrete 422 login failure is rejected untouched. -/
theorem C6_login_failure_witness :
    responseErrorHandler envOkW emptyTok loginErr422 =
      { tok := emptyTok, refreshIssued := false, resubmitted := none
        outcome := .rejected loginErr422, reqAfter := loginErr422.config } :=
  (C6_login_failure envOkW emptyTok loginErr422 rfl).1 rfl

/-- C7 (counterexample): the session flag and the token store can
disagree.  After a successful login, a failed refresh clears the token
store through the interceptor but leaves the cached user in the query
cache untouched, so a state is reached in which the authenticated flag is
true while `getAccessToken()` returns null — refuting the claimed iff. -/
theorem C7_counterexample :
    isAuthenticated (prun provStart [.loginOk 7 "acc1" "ref1", .refreshFailClear]) = true ∧
    getAccessToken (prun provStart [.loginOk 7 "acc1" "ref1", .refreshFailClear]).tok = none := by
  refine ⟨by decide, by decide⟩

/-- C7 (amended): the authenticated flag is derived solely from the cached
user object, not from the token store: immediately after a successful
login it is true and the store returns the stored pair, immediately after
logout it is false and the store is empty, but a token-clearing refresh
failure leaves the flag unchanged, so flag and store may disagree in
between. -/
theorem C7_session_follows_user (s : ProvState) (u : Nat) (a r : String)
    (ha : a ≠ "") :
    isAuthenticated (pstep s (.loginOk u a r)) = true ∧
    getAccessToken (pstep s (.loginOk u a r)).tok = some a ∧
    isAuthenticated (pstep s .logoutEv) = false ∧
    getAccessToken (pstep s .logoutEv).tok = none ∧
    isAuthenticated (pstep s .refreshFailClear) = isAuthenticated s := by
  refine ⟨rfl, ?_, rfl, ?_, rfl⟩
  · exact getAccessToken_setTokens a r s.tok (Or.inl ha)
  · exact getAccessToken_clearTokens s.tok

/-- C7 (witness): the login/logout synchronization points at a concrete
state. -/
theorem C7_session_follows_user_witness :
    isAuthenticated (pstep provStart (.loginOk 7 "acc1" "ref1")) = true ∧
    getAccessToken (pstep provStart (.loginOk 7 "acc1" "ref1")).tok = some "acc1" ∧
    isAuthenticated (pstep provStart .logoutEv) = false ∧
    getAccessToken (pstep provStart .logoutEv).tok = none ∧
    isAuthenticated (pstep provStart .refreshFailClear) = isAuthenticated provStart :=
  C7_session_follows_user provStart 7 "acc1" "ref1" (by decide)

/-- C1 (counterexample): the interceptor has no single-flight guard.  Two
requests that received a 401 concurrently, each with the stored refresh
token present, each issue their own refresh call before either resolves:
two refresh calls are issued — not exactly one — and both are in flight at
the same instant. -/
theorem C1_counterexample :
    (run cenvConst initSys (startAll 2)).refreshCount = 2 ∧
    (run cenvConst initSys (startAll 2)).maxFlight = 2 ∧
    ¬ (run cenvConst initSys (startAll 2)).refreshCount = 1 := by
  refine ⟨by decide, by decide, by decide⟩

/-- Invariant for a block of handler starts: as long as every process in
range is a not-yet-retried 401 and a truthy refresh token is stored, each
`start` issues one more refresh call, the in-flight count grows by one per
start, the high-water mark tracks it, and the token store is untouched. -/
theorem run_starts_invariant (env : CEnv) :
    ∀ (m k : Nat) (s : Sys),
      truthy (getRefreshToken s.tok) = true →
      (∀ j, k ≤ j → (s.procs j).phase = Phase.got401 ∧ (s.procs j).req.retry = false) →
      s.maxFlight = s.inFlight →
      (run env s ((List.range' k m).map Ev.start)).refreshCount = s.refreshCount + m ∧
      (run env s ((List.range' k m).map Ev.start)).inFlight = s.inFlight + m ∧
      (run env s ((List.range' k m).map Ev.start)).maxFlight = s.inFlight + m ∧
      (run env s ((List.range' k m).map Ev.start)).tok = s.tok := by
  intro m
  induction m with
  | zero =>
      intro k s h1 h2 h3
      exact ⟨rfl, rfl, h3, rfl⟩
  | succ n ih =>
      intro k s h1 h2 h3
      obtain ⟨hph, hrf⟩ := h2 k (Nat.le_refl k)
      cases hrtok : getRefreshToken s.tok with
      | none =>
          rw [hrtok] at h1
          simp [truthy] at h1
      | some rt =>
          have hne : rt ≠ "" := by
            intro h0
            rw [hrtok, h0] at h1
            simp [truthy] at h1
          have hstep : step env s (Ev.start k) = { s with
              procs := updProc s.procs k
                { req := { (s.procs k).req with retry := true }
                  phase := Phase.awaitRefresh s.refreshCount }
              refreshCount := s.refreshCount + 1
              inFlight := s.inFlight + 1
              maxFlight := max s.maxFlight (s.inFlight + 1) } := by
            simp [step, hph, hrf, hrtok, hne]
          have hrun : run env s ((List.range' k (n + 1)).map Ev.start)
              = run env (step env s (Ev.start k)) ((List.range' (k + 1) n).map Ev.start) := rfl
          rw [hrun, hstep]
          have c2 : ∀ j, k + 1 ≤ j →
              ((updProc s.procs k
                { req := { (s.procs k).req with retry := true }
                  phase := Phase.awaitRefresh s.refreshCount }) j).phase = Phase.got401 ∧
              ((updProc s.procs k
                { req := { (s.procs k).req with retry := true }
                  phase := Phase.awaitRefresh s.refreshCount }) j).req.retry = false := by
            intro j hj
            have hjk : j ≠ k := by omega
            simp only [updProc]
            rw [if_neg hjk]
            exact h2 j (by omega)
          obtain ⟨e1, e2, e3, e4⟩ := ih (k + 1)
            { s with
              procs := updProc s.procs k
                { req := { (s.procs k).req with retry := true }
                  phase := Phase.awaitRefresh s.refreshCount }
              refreshCount := s.refreshCount + 1
              inFlight := s.inFlight + 1
              maxFlight := max s.maxFlight (s.inFlight + 1) }
            h1 c2
            (by
              show max s.maxFlight (s.inFlight + 1) = s.inFlight + 1
              rw [h3]
              exact Nat.max_eq_right (Nat.le_succ _))
          refine ⟨?_, ?_, ?_, ?_⟩
          · rw [e1]
            show s.refreshCount + 1 + n = s.refreshCount + (n + 1)
            omega
          · rw [e2]
            show s.inFlight + 1 + n = s.inFlight + (n + 1)
            omega
          · rw [e3]
            show s.inFlight + 1 + n = s.inFlight + (n + 1)
            omega
          · rw [e4]

/-- C1 (amended): there is no single-flight coordination.  For every N,
when N concurrent requests each receive a 401 while a refresh token is
stored and each runs its handler before any refresh call resolves, N
refresh calls are issued — one per request — and all N are in flight at
the same instant. -/
theorem C1_no_single_flight (env : CEnv) (n : Nat) :
    (run env initSys (startAll n)).refreshCount = n ∧
    (run env initSys (startAll n)).inFlight = n ∧
    (run env initSys (startAll n)).maxFlight = n := by
  have h := run_starts_invariant env n 0 initSys (by decide)
    (fun j _ => ⟨rfl, rfl⟩) rfl
  have hs : startAll n = (List.range' 0 n).map Ev.start := by
    rw [startAll, List.range_eq_range']
  rw [hs]
  obtain ⟨e1, e2, e3, e4⟩ := h
  refine ⟨?_, ?_, ?_⟩
  · rw [e1]
    show 0 + n = n
    omega
  · rw [e2]
    show 0 + n = n
    omega
  · rw [e3]
    show 0 + n = n
    omega
